import Mathlib

/-!
Verification of the rule-based question-extraction pipeline:
structural text reconstruction, question block detection, format
classification, option normalization and the bounded JSON repair
protocol.  Text is embedded as `List Char`; every Python string
operation and regular expression used by the code is translated into
an executable Lean function with the same semantics on the inputs the
code feeds it.
-/

/-- Characters treated as whitespace by Python `str.strip`, `str.split()`
and the regex class `\s` (ASCII range plus the few extra control and
Latin-1 whitespace code points Python recognises). -/
def isPySpace (c : Char) : Bool :=
  c = ' ' || c = '\t' || c = '\n' || c = '\r' || c = '\x0b' || c = '\x0c' ||
  c = '\x1c' || c = '\x1d' || c = '\x1e' || c = '\x1f' || c = '\x85' || c = '\xa0'

/-- Python `str.strip()`: drop leading and trailing whitespace. -/
def pyStrip (l : List Char) : List Char :=
  ((l.dropWhile isPySpace).reverse.dropWhile isPySpace).reverse

/-- Does the first list start with the second one (regex literal prefix)? -/
def startsWithL : List Char → List Char → Bool
  | _, [] => true
  | [], _ :: _ => false
  | c :: cs, d :: ds => c = d && startsWithL cs ds

/-- Python `needle in haystack`: substring containment. -/
def isSubstr (needle : List Char) : List Char → Bool
  | [] => needle.isEmpty
  | c :: rest => startsWithL (c :: rest) needle || isSubstr needle rest

/-- Split a character list at every character satisfying `p`
(the separators are dropped; empty pieces are kept, as in Python
`str.split(sep)`). -/
def splitWhen (p : Char → Bool) : List Char → List (List Char)
  | [] => [[]]
  | c :: cs =>
    let r := splitWhen p cs
    if p c then [] :: r
    else
      match r with
      | [] => [[c]]
      | h :: t => (c :: h) :: t

/-- Python `str.split(sep)` for a one-character separator. -/
def splitOnChar (sep : Char) (l : List Char) : List (List Char) :=
  splitWhen (fun c => c = sep) l

/-- Python `str.split()` with no argument: whitespace-separated words. -/
def pyWords (l : List Char) : List (List Char) :=
  (splitWhen isPySpace l).filter (fun w => !w.isEmpty)

/-- Number of whitespace-separated words, Python `len(s.split())`. -/
def wordCount (l : List Char) : Nat := (pyWords l).length

/-- Join pieces with a separator, Python `sep.join(parts)`. -/
def joinSep (sep : List Char) : List (List Char) → List Char
  | [] => []
  | [x] => x
  | x :: y :: t => x ++ sep ++ joinSep sep (y :: t)

/-- Lowercase every character (`str.lower`, ASCII as used by the code). -/
def toLowerL (l : List Char) : List Char := l.map Char.toLower

/-- Uppercase every character (`str.upper`, ASCII as used by the code). -/
def toUpperL (l : List Char) : List Char := l.map Char.toUpper

/-- Word characters for the regex `\b` boundary: `[A-Za-z0-9_]`. -/
def isWordChar (c : Char) : Bool := c.isAlphanum || c = '_'

/-- The ten roman numerals appearing in the alternation
`(I|II|III|IV|V|VI|VII|VIII|IX|X)` of the source patterns. -/
def romanNumerals : List (List Char) :=
  (["I", "II", "III", "IV", "V", "VI", "VII", "VIII", "IX", "X"] : List String).map
    (fun s => s.data)

/-- Letters `a`-`d` in either case: the class `[a-dA-D]` of the option
patterns. -/
def isOptLetterAD (c : Char) : Bool :=
  c = 'a' || c = 'b' || c = 'c' || c = 'd' || c = 'A' || c = 'B' || c = 'C' || c = 'D'

/-- The class `[\)\.\]]` closing an option label. -/
def isCloseLabel (c : Char) : Bool := c = ')' || c = '.' || c = ']'

/-- Regex `^\d+\s*[\.\)]\s+` (`list_digit_item_pat` of the reconstructor
and `digit_list_pat` of the block detector): digits, optional spaces, a
dot or closing parenthesis, then at least one whitespace character. -/
def digitListItemMatch (l : List Char) : Bool :=
  let ds := l.takeWhile Char.isDigit
  if ds.isEmpty then false
  else
    match (l.drop ds.length).dropWhile isPySpace with
    | c :: r2 =>
      (c = '.' || c = ')') &&
        (match r2 with
         | d :: _ => isPySpace d
         | [] => false)
    | [] => false

/-! ## utils/table_handler.py -/

/-- `flatten_table_rows`: split each row on the pipe character, strip the
cells, drop empty cells, join the survivors with an en-dash separator;
rows with no surviving cell are dropped. -/
def flatten_table_rows (rows : List (List Char)) : List (List Char) :=
  rows.filterMap (fun row =>
    let parts := ((splitOnChar '|' row).map pyStrip).filter (fun p => !p.isEmpty)
    if parts.isEmpty then none
    else some (joinSep (" – ".data) parts))

/-! ## utils/upsc_text_reconstructor.py -/

namespace UPSCTextReconstructor

/-- Bullet glyphs removed by `preprocess` (`re.sub(r"[•●■▪▫]", "", text)`). -/
def bulletGlyphs : List Char := ['•', '●', '■', '▪', '▫']

/-- `preprocess`: replace non-breaking spaces with spaces, drop zero-width
spaces and bullet glyphs, split into lines, strip each line and drop the
empty ones. -/
def preprocess (text : List Char) : List (List Char) :=
  let t1 := text.map (fun c => if c = '\xa0' then ' ' else c)
  let t2 := t1.filter (fun c => !(c = '\u200B' || bulletGlyphs.contains c))
  ((splitOnChar '\n' t2).map pyStrip).filter (fun l => !l.isEmpty)

/-- `option_pat.match`: regex `^[\(\[]?[a-dA-D][\)\.\]]?` — an optional
opening bracket, one letter `a`-`d` in either case, and an optional
closing delimiter (the two optional pieces never decide the match). -/
def is_option (l : List Char) : Bool :=
  match l with
  | [] => false
  | c :: rest =>
    if c = '(' || c = '[' then
      (match rest with
       | d :: _ => isOptLetterAD d
       | [] => false) || isOptLetterAD c
    else isOptLetterAD c

/-- `roman_pat.match`: regex `^(I|II|...|X)[\.\:]?$` with `IGNORECASE` —
the whole line is a roman numeral optionally followed by one dot or
colon. -/
def is_roman (l : List Char) : Bool :=
  romanNumerals.any (fun r =>
    toUpperL l = r || toUpperL l = r ++ ['.'] || toUpperL l = r ++ [':'])

/-- `statement_pat.match`: regex `^statement[\s\-]*([i1]+)[\.\:]*$` with
`IGNORECASE`. -/
def is_statement_header (l : List Char) : Bool :=
  let low := toLowerL l
  startsWithL low (("statement").data) &&
    (let rest := (low.drop 9).dropWhile (fun c => isPySpace c || c = '-')
     let core := rest.takeWhile (fun c => c = 'i' || c = '1')
     !core.isEmpty && (rest.drop core.length).all (fun c => c = '.' || c = ':'))

/-- `list_digit_pat.match`: regex `^\d+\.$` — the whole line is digits
followed by a single dot. -/
def is_list_digit_header (l : List Char) : Bool :=
  let ds := l.takeWhile Char.isDigit
  !ds.isEmpty && l.drop ds.length = ['.']

/-- `table_sep_pat.search`: regex `[|]{1,}` — the line contains a pipe. -/
def is_table_row (l : List Char) : Bool := l.any (fun c => c = '|')

/-- Python `line.rstrip(".:")`: drop every trailing dot or colon. -/
def rstripDotColon (l : List Char) : List Char :=
  (l.reverse.dropWhile (fun c => c = '.' || c = ':')).reverse

/-- Python `buffer.endswith((".", "?", "!", ":"))`. -/
def endsTerminal (l : List Char) : Bool :=
  match l.getLast? with
  | some c => c = '.' || c = '?' || c = '!' || c = ':'
  | none => false

/-- `re.sub(r" {2,}", " ", s)`: collapse every run of two or more spaces
to a single space. -/
def collapseSpaces : List Char → List Char
  | [] => []
  | [c] => [c]
  | c :: d :: rest =>
    if c = ' ' && d = ' ' then collapseSpaces (d :: rest)
    else c :: collapseSpaces (d :: rest)

/-- The scanning loop of `reconstruct`: state is the remaining lines, the
`structured` output accumulator, the paragraph `buffer` and the pending
`table_rows`.  The roman-header and digit-header branches read the next
line through the one-line lookahead `lines[i + 1]` but the loop still
visits that next line on the following iteration (the source has no skip
flag), which this embedding reproduces by recursing on `rest`. -/
def reconLoop : List (List Char) → List (List Char) → List Char → List (List Char) →
    List (List Char)
  | [], structured, buffer, table_rows =>
    (if buffer.isEmpty then structured else structured ++ [pyStrip buffer]) ++
      flatten_table_rows table_rows
  | line :: rest, structured, buffer, table_rows =>
    if is_table_row line then
      reconLoop rest structured buffer (table_rows ++ [line])
    else
      let s1 := structured ++ flatten_table_rows table_rows
      if is_option line then
        reconLoop rest
          ((if buffer.isEmpty then s1 else s1 ++ [pyStrip buffer]) ++ [line]) [] []
      else if is_statement_header line then
        reconLoop rest
          ((if buffer.isEmpty then s1 else s1 ++ [pyStrip buffer]) ++
            [rstripDotColon line ++ [':']]) [] []
      else if is_roman line then
        let numeral := rstripDotColon line ++ ['.']
        match rest with
        | next :: _ =>
          if !is_roman next then
            reconLoop rest (s1 ++ [numeral ++ ' ' :: next]) buffer []
          else reconLoop rest (s1 ++ [numeral]) buffer []
        | [] => reconLoop rest (s1 ++ [numeral]) buffer []
      else if is_list_digit_header line then
        match rest with
        | next :: _ => reconLoop rest (s1 ++ [line ++ ' ' :: next]) buffer []
        | [] => reconLoop rest (s1 ++ [line]) buffer []
      else if digitListItemMatch line then
        reconLoop rest (s1 ++ [line]) buffer []
      else
        if buffer.isEmpty then reconLoop rest s1 line []
        else if endsTerminal buffer then reconLoop rest (s1 ++ [buffer]) line []
        else reconLoop rest s1 (buffer ++ ' ' :: line) []

/-- `reconstruct`: preprocess, scan, collapse duplicate spaces in every
emitted unit, join with newlines and strip the result. -/
def reconstruct (text : List Char) : List Char :=
  let lines := preprocess text
  let structured := reconLoop lines [] [] []
  pyStrip (joinSep ['\n'] (structured.map collapseSpaces))

end UPSCTextReconstructor

/-! ## utils/upsc_question_block_detector.py -/

namespace UPSCQuestionBlockDetector

/-- Core of `option_pat.match` on an already-taken candidate: regex
`^[\(\[]?\s*([a-dA-D])[\)\.\]]?\s` without its optional opening bracket:
optional whitespace, a letter `a`-`d`, then either a closing delimiter
followed by a whitespace character or directly a whitespace character. -/
def optionCore (ds : List Char) : Bool :=
  match ds.dropWhile isPySpace with
  | c :: rest =>
    isOptLetterAD c &&
      (match rest with
       | d :: rest2 =>
         (isCloseLabel d &&
           (match rest2 with
            | e :: _ => isPySpace e
            | [] => false)) || isPySpace d
       | [] => false)
  | [] => false

/-- `option_pat.match`: regex `^[\(\[]?\s*([a-dA-D])[\)\.\]]?\s` — the
optional opening bracket is tried first, with fallback to the bracketless
reading, as regex backtracking does. -/
def optionMatch (l : List Char) : Bool :=
  match l with
  | c :: rest =>
    if c = '(' || c = '[' then optionCore rest || optionCore l
    else optionCore l
  | [] => false

/-- `is_option`: the pattern is applied to `line.strip()`. -/
def is_option (l : List Char) : Bool := optionMatch (pyStrip l)

/-- `roman_pat.match`: regex `^(I|II|...|X)[\.\:]` with `IGNORECASE` —
the line starts with a roman numeral immediately followed by a dot or
colon. -/
def romanMatch (l : List Char) : Bool :=
  romanNumerals.any (fun r =>
    startsWithL (toUpperL l) (r ++ ['.']) || startsWithL (toUpperL l) (r ++ [':']))

/-- One scanning step of `table_pat.search` for the regex
`[A-Za-z0-9]+\s*\|\s*[A-Za-z0-9]+`: `left` is the reversed prefix before
the current position; a pipe matches when skipping whitespace on each
side reaches an alphanumeric character. -/
def tableSearchGo : List Char → List Char → Bool
  | _, [] => false
  | left, c :: rest =>
    (c = '|' &&
      (match left.dropWhile isPySpace with
       | a :: _ => a.isAlphanum
       | [] => false) &&
      (match rest.dropWhile isPySpace with
       | b :: _ => b.isAlphanum
       | [] => false)) ||
    tableSearchGo (c :: left) rest

/-- `table_pat.search`: the line contains `alnum+ \s* | \s* alnum+`. -/
def tableMatch (l : List Char) : Bool := tableSearchGo [] l

/-- The literal prefixes of `likely_q_start`, all compiled with
`IGNORECASE`. -/
def likely_q_start : List (List Char) :=
  (["with reference", "consider the following", "which of the following",
    "which one of the following", "assertion", "read the following",
    "regarding", "in the context", "who among the following",
    "identify the correct", "identify which"] : List String).map (fun s => s.data)

/-- The alternation `^(which|what|when|where|who|identify)\b` of the
WH-question test: a listed word starts the text and is followed by a
non-word character or the end of the text. -/
def whMatch (low : List Char) : Bool :=
  ((["which", "what", "when", "where", "who", "identify"] : List String).map
      (fun s => s.data)).any
    (fun w =>
      startsWithL low w &&
        (match low.drop w.length with
         | c :: _ => !isWordChar c
         | [] => true))

/-- `is_probable_question_start`: short lines are never starts; then the
WH-question test, the canonical exam stems, the "how many" stems and the
long trailing-question-mark test, in source order. -/
def is_probable_question_start (line : List Char) : Bool :=
  let low := pyStrip (toLowerL line)
  if low.length < 15 then false
  else if whMatch low ∧ 3 < wordCount low then true
  else if likely_q_start.any (fun p => startsWithL (toLowerL line) p) then true
  else if startsWithL low (("how many").data) ∧ 3 < wordCount low then true
  else if low.getLast? = some '?' ∧ 4 < wordCount low then true
  else false

/-- Python `line[0].islower()`; `detect` only feeds non-empty lines, so
the empty case is unreachable there (Python would raise on it). -/
def firstLower (l : List Char) : Bool :=
  match l with
  | c :: _ => c.isLower
  | [] => false

/-- The scanning loop of `detect`: `blocks` is the committed output,
`curr` the block being accumulated.  Continuation rules append; only the
probable-question-start rule can commit `curr`, and it merges instead
when `curr` holds fewer than five words. -/
def detect_loop : List (List Char) → List (List Char) → List (List Char) →
    List (List Char)
  | [], blocks, curr =>
    if curr.isEmpty then blocks
    else blocks ++ [pyStrip (joinSep ['\n'] curr)]
  | line :: rest, blocks, curr =>
    if tableMatch line then detect_loop rest blocks (curr ++ [line])
    else if digitListItemMatch line then detect_loop rest blocks (curr ++ [line])
    else if romanMatch line then detect_loop rest blocks (curr ++ [line])
    else if is_option line then detect_loop rest blocks (curr ++ [line])
    else if !curr.isEmpty && firstLower line then detect_loop rest blocks (curr ++ [line])
    else if !curr.isEmpty && decide (wordCount line ≤ 3) then
      detect_loop rest blocks (curr ++ [line])
    else if is_probable_question_start line then
      if !curr.isEmpty && decide (wordCount (joinSep [' '] curr) < 5) then
        detect_loop rest blocks (curr ++ [line])
      else
        detect_loop rest
          (if curr.isEmpty then blocks
           else blocks ++ [pyStrip (joinSep ['\n'] curr)]) [line]
    else detect_loop rest blocks (curr ++ [line])

/-- The stripped non-empty lines `detect` works on. -/
def detect_lines (text : List Char) : List (List Char) :=
  ((splitOnChar '\n' text).map pyStrip).filter (fun l => !l.isEmpty)

/-- `detect`: run the scanning loop over the stripped non-empty lines. -/
def detect (text : List Char) : List (List Char) :=
  detect_loop (detect_lines text) [] []

end UPSCQuestionBlockDetector

/-! ## phase2/format_classifier.py -/

namespace FormatClassifier

/-- Does `\b\d+\.` match at the current position, given the previous
character (`none` at the start of the text)?  The boundary needs a
non-word previous character; `\d+` is the maximal digit run, which must
be followed by a dot. -/
def numericItemAt (prev : Option Char) (l : List Char) : Bool :=
  (match prev with
   | some p => !isWordChar p
   | none => true) &&
    (let ds := l.takeWhile Char.isDigit
     !ds.isEmpty && (l.drop ds.length).head? = some '.')

/-- Count the matches of `re.findall(r"\b\d+\.", text)` by scanning every
position; positions inside a match never satisfy the boundary, so the
per-position count equals the non-overlapping count. -/
def countNumericFrom : Option Char → List Char → Nat
  | _, [] => 0
  | prev, c :: rest =>
    (if numericItemAt prev (c :: rest) then 1 else 0) + countNumericFrom (some c) rest

/-- `len(re.findall(r"\b\d+\.", text))`. -/
def countNumeric (text : List Char) : Nat := countNumericFrom none text

/-- Does `\b(I|II|...|X)\.` match at the current position (uppercase
only; no `IGNORECASE` on this pattern)? -/
def romanItemAt (prev : Option Char) (l : List Char) : Bool :=
  (match prev with
   | some p => !isWordChar p
   | none => true) &&
    romanNumerals.any (fun r => startsWithL l (r ++ ['.']))

/-- Count the matches of `re.findall(r"\b(I|II|...|X)\.", text)`;
as for the numeric count, interior positions fail the boundary, so the
per-position count equals the non-overlapping count. -/
def countRomanFrom : Option Char → List Char → Nat
  | _, [] => 0
  | prev, c :: rest =>
    (if romanItemAt prev (c :: rest) then 1 else 0) + countRomanFrom (some c) rest

/-- `len(re.findall(r"\b(I|II|...|X)\.", text))`. -/
def countRoman (text : List Char) : Nat := countRomanFrom none text

/-- First alternative of the bullet pattern, `\(?\d+\)` without its
optional parenthesis: a digit run closed by a parenthesis. -/
def bulletDigits (l : List Char) : Bool :=
  let ds := l.takeWhile Char.isDigit
  !ds.isEmpty && (l.drop ds.length).head? = some ')'

/-- Second alternative, `\(?[a-d]\)` without its optional parenthesis. -/
def bulletLetter : List Char → Bool
  | c :: d :: _ => (c = 'a' || c = 'b' || c = 'c' || c = 'd') && d = ')'
  | _ => false

/-- Does `^\(?\d+\)|^\(?[a-d]\)` match at a line start (the `^` of the
`MULTILINE` pattern)?  Each alternative is tried with and then without
the optional opening parenthesis, as backtracking does. -/
def bulletStart (l : List Char) : Bool :=
  match l with
  | '(' :: rest => bulletDigits rest || bulletDigits l || bulletLetter rest || bulletLetter l
  | _ => bulletDigits l || bulletLetter l

/-- Table header cues searched in the lowercased text. -/
def headerCues : List (List Char) :=
  (["organization", "functions", "works under", "column i", "column ii"] :
    List String).map (fun s => s.data)

/-- Paragraph cues searched in the lowercased text. -/
def paragraphCues : List (List Char) :=
  (["read the following", "paragraph", "passage"] : List String).map (fun s => s.data)

/-- The local `qt` of `classify`: `text.lower().strip()`. -/
def qtOf (text : List Char) : List Char := pyStrip (toLowerL text)

/-- The local `lines` of `classify`: stripped non-empty lines. -/
def linesOf (text : List Char) : List (List Char) :=
  ((splitOnChar '\n' text).map pyStrip).filter (fun l => !l.isEmpty)

/-- The local `multi_col_lines` of `classify`: how many lines hold at
least three non-blank chunks when split on single spaces. -/
def multiColOf (text : List Char) : Nat :=
  ((linesOf text).filter (fun ln =>
    decide (3 ≤ ((splitOnChar ' ' ln).filter (fun c => !(pyStrip c).isEmpty)).length))).length

/-- The local `short_lines` of the header-cue rule: how many lines are
shorter than 35 characters. -/
def shortLinesOf (text : List Char) : Nat :=
  ((linesOf text).filter (fun ln => decide (ln.length < 35))).length

/-- `classify`: the ordered rule cascade of `FormatClassifier.classify`,
returning the first matching tag.  Rules appear in source order: pipe
table, multi-column table, header-cue table, numeric-item statement,
roman-item statement, statement-header statement, statement phrase,
bullet statement, match phrase, assertion, paragraph cues, long
paragraph, default single. -/
def classify (text : List Char) : String :=
  if text.isEmpty then "single"
  else if text.any (fun c => c = '|') then "table"
  else if 2 ≤ multiColOf text then "table"
  else if headerCues.any (fun h => isSubstr h (qtOf text)) ∧
      3 ≤ shortLinesOf text then "table"
  else if 2 ≤ countNumeric text then "statement"
  else if 2 ≤ countRoman text then "statement"
  else if isSubstr (("statement i").data) (qtOf text) ∨
      isSubstr (("statement ii").data) (qtOf text) then "statement"
  else if isSubstr (("consider the following statements").data) (qtOf text) then
    "statement"
  else if 2 ≤ ((splitOnChar '\n' text).filter bulletStart).length then "statement"
  else if isSubstr (("match the following").data) (qtOf text) then "match"
  else if isSubstr (("assertion").data) (qtOf text) ∧
      isSubstr (("reason").data) (qtOf text) then "assertion"
  else if paragraphCues.any (fun k => isSubstr k (qtOf text)) then "paragraph"
  else if 5 ≤ (text.filter (fun c => c = '.')).length then "paragraph"
  else "single"

end FormatClassifier

/-! ## phase2/option_normalizer.py -/

namespace OptionNormalizer

/-- The class `([a-eA-E])` of `option_label_pat`. -/
def isLabelLetter (c : Char) : Bool :=
  ('a' ≤ c && c ≤ 'e') || ('A' ≤ c && c ≤ 'E')

/-- Consume the tail `[\)\.\]]?\s*` of the label pattern after its
letter: one optional closing delimiter, then any whitespace. -/
def afterLabel (l : List Char) : List Char :=
  match l with
  | c :: rest => if isCloseLabel c then rest.dropWhile isPySpace else l.dropWhile isPySpace
  | [] => []

/-- `option_label_pat.match(...)` keeping `group(1)`: regex
`^[\(\[]?\s*([a-eA-E])[\)\.\]]?\s*` with `IGNORECASE` (the class is
already case-free); the optional opening bracket is tried first with
fallback, as backtracking does. -/
def matchLabel (l : List Char) : Option Char :=
  let core : List Char → Option Char := fun ds =>
    match ds.dropWhile isPySpace with
    | c :: _ => if isLabelLetter c then some c else none
    | [] => none
  match l with
  | c :: rest =>
    if c = '(' || c = '[' then
      match core rest with
      | some x => some x
      | none => core l
    else core l
  | [] => none

/-- Same pattern, returning what remains of the text after removing the
matched prefix (for `re.sub(pattern, "", v)`). -/
def matchLabelRemainder (l : List Char) : Option (List Char) :=
  let core : List Char → Option (List Char) := fun ds =>
    match ds.dropWhile isPySpace with
    | c :: rest => if isLabelLetter c then some (afterLabel rest) else none
    | [] => none
  match l with
  | c :: rest =>
    if c = '(' || c = '[' then
      match core rest with
      | some x => some x
      | none => core l
    else core l
  | [] => none

/-- `_clean_option_value`: strip the value, then delete a leading
`[\(\[]?\s*[a-eA-E][\)\.\]]?\s*` prefix when the pattern matches. -/
def clean_option_value (value : List Char) : List Char :=
  let v := pyStrip value
  match matchLabelRemainder v with
  | some rest => rest
  | none => v

/-- Python dict assignment `d[k] = v` on an insertion-ordered
association list: update in place when the key exists, append
otherwise. -/
def dictInsert (d : List (String × String)) (k v : String) : List (String × String) :=
  if d.any (fun p => p.1 == k) then
    d.map (fun p => if p.1 == k then (k, v) else p)
  else d ++ [(k, v)]

/-- Ordered lookup in the association list. -/
def lookupKey (d : List (String × String)) (k : String) : Option String :=
  (d.find? (fun p => p.1 == k)).map (fun p => p.2)

/-- `normalize`: for each entry, match the label pattern on the stripped
key (entries with no match are dropped), uppercase the captured letter,
clean and strip the value; then rebuild the mapping in the fixed order
`A`-`E`, keeping only present letters. -/
def normalize (options : List (String × String)) : List (String × String) :=
  let cleaned := options.foldl (fun acc kv =>
    match matchLabel (pyStrip kv.1.data) with
    | none => acc
    | some c =>
      dictInsert acc (String.mk [c.toUpper])
        (String.mk (pyStrip (clean_option_value kv.2.data)))) []
  (["A", "B", "C", "D", "E"] : List String).filterMap (fun letter =>
    (lookupKey cleaned letter).map (fun v => (letter, v)))

end OptionNormalizer

/-! ## phase2/json_sanitizer.py -/

namespace JsonSanitizer

/-- The control characters removed by `_try_parse`:
`[\x00-\x08\x0b\x0c\x0e-\x1f]`. -/
def isForbiddenCtl (c : Char) : Bool :=
  c.toNat ≤ 8 || c.toNat = 11 || c.toNat = 12 ||
    (14 ≤ c.toNat && c.toNat ≤ 31)

/-- Remove the forbidden control characters. -/
def stripCtl (l : List Char) : List Char := l.filter (fun c => !isForbiddenCtl c)

/-- Escape raw newlines as the two characters backslash-`n`
(`text.replace("\n", "\\n")`). -/
def escapeNl (l : List Char) : List Char :=
  l.foldr (fun c acc => (if c = '\n' then ['\\', 'n'] else [c]) ++ acc) []

/-- `re.sub(r'"([^"]*?)"', fix_newlines, json_str, flags=re.DOTALL)`:
each quoted span (up to the nearest closing quote) has its raw newlines
escaped; a quote with no later closing quote is left as is. -/
def fixNewlines : List Char → List Char
  | [] => []
  | c :: rest =>
    if c = '"' && rest.any (fun d => d = '"') then
      let inner := rest.takeWhile (fun d => !(d = '"'))
      let after := (rest.drop inner.length).drop 1
      '"' :: (escapeNl inner ++ '"' :: fixNewlines after)
    else c :: fixNewlines rest
termination_by l => l.length
decreasing_by
  · simp only [List.length_drop, List.length_cons]
    omega
  · simp [List.length_cons]

/-- Trim to the span from the first `{` to the last `}`, when both
exist (`find`/`rfind` then slicing; an inverted span yields the empty
string, as Python slicing does). -/
def trimToBraces (s : List Char) : List Char :=
  if s.any (fun c => c = '{') ∧ s.any (fun c => c = '}') then
    let start := (s.takeWhile (fun c => !(c = '{'))).length
    let stop := s.length - 1 - (s.reverse.takeWhile (fun c => !(c = '}'))).length
    (s.take (stop + 1)).drop start
  else s

/-- `_try_parse` with `json.loads` abstracted as `loads` (returning
`none` where the library would raise): clean the control characters,
escape newlines in quoted spans, trim to the outermost braces, parse. -/
def try_parse {V : Type} (loads : List Char → Option V) (json_str : List Char) :
    Option V :=
  loads (trimToBraces (fixNewlines (stripCtl json_str)))

/-- The sentinel failure record returned when repair fails:
`{"extracted_successfully": False, "error": ..., "raw_text_excerpt": ...}`. -/
structure FailureRecord where
  extracted_successfully : Bool
  error : List Char
  raw_text_excerpt : List Char
deriving DecidableEq

/-- Outcome of `sanitize_and_load`: a parsed value or the sentinel
record. -/
inductive SanitizeOutcome (V : Type) where
  | parsed : V → SanitizeOutcome V
  | sentinel : FailureRecord → SanitizeOutcome V

/-- `sanitize_and_load` with `json.loads` abstracted as `loads` and the
external `request_json_repair` service abstracted as the total oracle
`repair`.  The second component of the result is the list of texts sent
to the repair service, making the one-shot repair protocol explicit:
parse; on failure repair once and re-parse; on a second failure return
the sentinel carrying the first 200 characters of the original input.
The function is total, so no exception can escape to the caller. -/
def sanitize_and_load {V : Type} (loads : List Char → Option V)
    (repair : List Char → List Char) (json_str : List Char) :
    SanitizeOutcome V × List (List Char) :=
  match try_parse loads json_str with
  | some v => (SanitizeOutcome.parsed v, [])
  | none =>
    let repaired := repair json_str
    match try_parse loads repaired with
    | some v => (SanitizeOutcome.parsed v, [json_str])
    | none =>
      (SanitizeOutcome.sentinel
        { extracted_successfully := false,
          error := ("Could not repair JSON").data,
          raw_text_excerpt := json_str.take 200 }, [json_str])

end JsonSanitizer

/-! ## Claims -/

/-- Claim C1.  The spec says a lone roman (or numeric) header line is
merged with the following line and both lines are consumed, so the
following text appears exactly once.  The code merges through a
one-line lookahead but has no skip: the loop still visits the following
line, which is therefore emitted a second time.  This theorem evaluates
`reconstruct` at two failing inputs: the text of the followup line
appears twice in the output. -/
theorem recon_lone_header_duplicates_followup :
    UPSCTextReconstructor.reconstruct (("I.\nWheat").data) = ("I. Wheat\nWheat").data ∧
    UPSCTextReconstructor.reconstruct (("1.\nWheat").data) = ("1. Wheat\nWheat").data := by
  constructor <;> decide

/-- Claim C2.  The spec's end-to-end example expects one block
`"1. What is the capital of France?\na) Paris\nb) Lyon"` classified
`single`.  Because the reconstructor re-processes the line following a
lone `"1."` header, the pipeline actually produces two blocks, the
second of which classifies as `statement`. -/
theorem pipeline_end_to_end_diverges :
    UPSCQuestionBlockDetector.detect
        (UPSCTextReconstructor.reconstruct
          (("1.\nWhat is the capital\nof France?\na) Paris\nb) Lyon").data)) =
      [("1. What is the capital").data,
       ("What is the capital of France?\na) Paris\nb) Lyon").data] ∧
    FormatClassifier.classify
        (("What is the capital of France?\na) Paris\nb) Lyon").data) = "statement" ∧
    UPSCQuestionBlockDetector.detect
        (UPSCTextReconstructor.reconstruct
          (("1.\nWhat is the capital\nof France?\na) Paris\nb) Lyon").data)) ≠
      [("1. What is the capital of France?\na) Paris\nb) Lyon").data] := by
  refine ⟨by decide, by decide, by decide⟩

/-- Claim C3.  The spec requires `reconstruct` to be idempotent.  It is
not: on `"I.\nWheat"` the first pass emits the merged unit and the
duplicated followup line, and the second pass merges those two lines
into one paragraph, changing the output. -/
theorem reconstruct_not_idempotent :
    UPSCTextReconstructor.reconstruct
        (UPSCTextReconstructor.reconstruct (("I.\nWheat").data)) ≠
      UPSCTextReconstructor.reconstruct (("I.\nWheat").data) := by
  decide

/-- Claim C4, counterexample.  The claim says every text containing
"correctly matched" that fails the table rule classifies as `match`.
The classifier has no rule for that phrase: the text consisting of the
phrase alone contains it, does not satisfy the table rule, and
classifies as `single`. -/
theorem classify_correctly_matched_not_match :
    isSubstr (("correctly matched").data) (("correctly matched").data) = true ∧
    FormatClassifier.classify (("correctly matched").data) ≠ "table" ∧
    FormatClassifier.classify (("correctly matched").data) ≠ "match" := by
  refine ⟨by decide, by decide, by decide⟩

/-- Claim C4, amended.  `classify` has no "correctly matched" rule; a
text containing the phrase is routed by the remaining cascade: the
phrase alone yields `single`, and because the statement rule precedes
the match rule, the phrase next to two numeric bullet items yields
`statement`, never `match`. -/
theorem classify_correctly_matched_falls_through :
    FormatClassifier.classify (("correctly matched").data) = "single" ∧
    isSubstr (("correctly matched").data)
      (("correctly matched\n1. x\n2. y").data) = true ∧
    FormatClassifier.classify (("correctly matched\n1. x\n2. y").data) = "statement" := by
  refine ⟨by decide, by decide, by decide⟩


/-- An if-then-else lands in a list as soon as both branches do. -/
theorem mem_ite {α : Type} {L : List α} {c : Prop} [Decidable c] {a b : α}
    (ha : a ∈ L) (hb : b ∈ L) : (if c then a else b) ∈ L := by
  split <;> assumption

/-- Claim C8.  `classify` is total and always returns one of the six
closed tags; the empty string returns `single`. -/
theorem classify_total_closed_tags :
    (∀ text : List Char,
      FormatClassifier.classify text ∈
        (["single", "statement", "table", "match", "assertion", "paragraph"] :
          List String)) ∧
    FormatClassifier.classify (("").data) = "single" := by
  constructor
  · intro text
    unfold FormatClassifier.classify
    repeat' apply mem_ite
    all_goals decide
  · decide

/-- Claim C9.  Any text containing a pipe character (and in particular
one that also has two roman bullet markers) is classified `table` by the
first rule of the cascade, so it is never classified `statement`: the
table rule precedes the statement rule. -/
theorem classify_pipe_table_priority (text : List Char)
    (hpipe : text.any (fun c => c = '|') = true)
    (hroman : 2 ≤ FormatClassifier.countRoman text) :
    FormatClassifier.classify text = "table" ∧
    FormatClassifier.classify text ≠ "statement" := by
  have hne : text.isEmpty = false := by
    cases text with
    | nil => simp at hpipe
    | cons c t => rfl
  have htab : FormatClassifier.classify text = "table" := by
    simp [FormatClassifier.classify, hne, hpipe]
  exact ⟨htab, by rw [htab]; decide⟩

/-- Witness for claim C9 at a concrete block with a pipe and two roman
bullet markers. -/
theorem classify_pipe_table_priority_witness :
    FormatClassifier.classify (("I. a | b II. c").data) = "table" ∧
    FormatClassifier.classify (("I. a | b II. c").data) ≠ "statement" :=
  classify_pipe_table_priority (("I. a | b II. c").data) (by decide) (by decide)

/-- Claim C5.  On a first parse failure, `sanitize_and_load` sends
exactly one repair request, carrying the original malformed text; when
the parse of the repaired text also fails it returns the sentinel record
with `extracted_successfully = false` and the first 200 characters of
the original input, and in every case it returns a value (parsed or
sentinel) rather than raising. -/
theorem sanitize_one_shot_repair {V : Type} (loads : List Char → Option V)
    (repair : List Char → List Char) (json_str : List Char)
    (hfail : JsonSanitizer.try_parse loads json_str = none) :
    (JsonSanitizer.sanitize_and_load loads repair json_str).2 = [json_str] ∧
    (JsonSanitizer.try_parse loads (repair json_str) = none →
      (JsonSanitizer.sanitize_and_load loads repair json_str).1 =
        JsonSanitizer.SanitizeOutcome.sentinel
          { extracted_successfully := false,
            error := ("Could not repair JSON").data,
            raw_text_excerpt := json_str.take 200 }) ∧
    ((∃ v, (JsonSanitizer.sanitize_and_load loads repair json_str).1 =
        JsonSanitizer.SanitizeOutcome.parsed v) ∨
      (JsonSanitizer.sanitize_and_load loads repair json_str).1 =
        JsonSanitizer.SanitizeOutcome.sentinel
          { extracted_successfully := false,
            error := ("Could not repair JSON").data,
            raw_text_excerpt := json_str.take 200 }) := by
  cases h2 : JsonSanitizer.try_parse loads (repair json_str) with
  | none =>
    refine ⟨?_, ?_, ?_⟩
    · simp [JsonSanitizer.sanitize_and_load, hfail, h2]
    · intro _
      simp [JsonSanitizer.sanitize_and_load, hfail, h2]
    · right
      simp [JsonSanitizer.sanitize_and_load, hfail, h2]
  | some v =>
    refine ⟨?_, ?_, ?_⟩
    · simp [JsonSanitizer.sanitize_and_load, hfail, h2]
    · intro hcontra
      exact absurd hcontra (by simp)
    · left
      exact ⟨v, by simp [JsonSanitizer.sanitize_and_load, hfail, h2]⟩

/-- Witness for claim C5: a parser that always fails and the identity
repair oracle, on the input "oops". -/
theorem sanitize_one_shot_repair_witness :
    (JsonSanitizer.sanitize_and_load (fun _ => (none : Option Nat)) (fun s => s)
        (("oops").data)).2 = [("oops").data] ∧
    (JsonSanitizer.sanitize_and_load (fun _ => (none : Option Nat)) (fun s => s)
        (("oops").data)).1 =
      JsonSanitizer.SanitizeOutcome.sentinel
        { extracted_successfully := false,
          error := ("Could not repair JSON").data,
          raw_text_excerpt := (("oops").data).take 200 } :=
  have h := sanitize_one_shot_repair (fun _ => (none : Option Nat)) (fun s => s)
    (("oops").data) rfl
  ⟨h.1, h.2.1 rfl⟩

/-- Claim C7.  When none of the continuation rules fires and the line is
a probable question start, one step of the detector loop merges the line
into the current block when that block holds fewer than five words, and
otherwise commits the current block (when non-empty) and starts a fresh
block with the line. -/
theorem detect_probable_start_step (line : List Char)
    (rest blocks curr : List (List Char))
    (h1 : UPSCQuestionBlockDetector.tableMatch line = false)
    (h2 : digitListItemMatch line = false)
    (h3 : UPSCQuestionBlockDetector.romanMatch line = false)
    (h4 : UPSCQuestionBlockDetector.is_option line = false)
    (h5 : (!curr.isEmpty && UPSCQuestionBlockDetector.firstLower line) = false)
    (h6 : (!curr.isEmpty && decide (wordCount line ≤ 3)) = false)
    (h7 : UPSCQuestionBlockDetector.is_probable_question_start line = true) :
    UPSCQuestionBlockDetector.detect_loop (line :: rest) blocks curr =
      if !curr.isEmpty && decide (wordCount (joinSep [' '] curr) < 5) then
        UPSCQuestionBlockDetector.detect_loop rest blocks (curr ++ [line])
      else
        UPSCQuestionBlockDetector.detect_loop rest
          (if curr.isEmpty then blocks
           else blocks ++ [pyStrip (joinSep ['\n'] curr)]) [line] := by
  simp only [UPSCQuestionBlockDetector.detect_loop, h1, h2, h3, h4, h5, h6, h7,
    Bool.false_eq_true, if_false, if_true]

/-- Witness for claim C7: a probable question start following a short
current block is merged into it. -/
theorem detect_probable_start_step_witness :
    UPSCQuestionBlockDetector.detect_loop
        [("Which of the following is correct?").data] [] [("tiny bit").data] =
      if !([("tiny bit").data] : List (List Char)).isEmpty &&
          decide (wordCount (joinSep [' '] [("tiny bit").data]) < 5) then
        UPSCQuestionBlockDetector.detect_loop [] []
          ([("tiny bit").data] ++ [("Which of the following is correct?").data])
      else
        UPSCQuestionBlockDetector.detect_loop []
          (if ([("tiny bit").data] : List (List Char)).isEmpty then []
           else [] ++ [pyStrip (joinSep ['\n'] [("tiny bit").data])])
          [("Which of the following is correct?").data] :=
  detect_probable_start_step (("Which of the following is correct?").data)
    [] [] [("tiny bit").data] (by decide) (by decide) (by decide) (by decide)
    (by decide) (by decide) (by decide)

/-- When no remaining line is a probable question start, the detector
loop only ever appends: it ends with the committed blocks plus, when the
pending material is non-empty, one final block holding it all. -/
theorem detect_loop_all_continuation (lines : List (List Char)) :
    ∀ (blocks curr : List (List Char)),
      (∀ l ∈ lines, UPSCQuestionBlockDetector.is_probable_question_start l = false) →
      UPSCQuestionBlockDetector.detect_loop lines blocks curr =
        if curr ++ lines = [] then blocks
        else blocks ++ [pyStrip (joinSep ['\n'] (curr ++ lines))] := by
  induction lines with
  | nil =>
    intro blocks curr _
    cases curr <;> simp [UPSCQuestionBlockDetector.detect_loop]
  | cons line rest ih =>
    intro blocks curr h
    have hline : UPSCQuestionBlockDetector.is_probable_question_start line = false :=
      h line (List.mem_cons_self line rest)
    have hrest : ∀ l ∈ rest,
        UPSCQuestionBlockDetector.is_probable_question_start l = false :=
      fun l hl => h l (List.mem_cons_of_mem line hl)
    simp only [UPSCQuestionBlockDetector.detect_loop, hline, Bool.false_eq_true,
      if_false]
    split_ifs <;>
      simp [ih _ _ hrest, List.append_assoc]
    all_goals simp_all

/-- Claim C6.  `detect` on a text with no non-empty lines returns the
empty list; on a text whose lines contain no probable question start it
returns exactly one block: the newline-join of all the lines, in their
original order. -/
theorem detect_empty_and_no_start (text : List Char) :
    (UPSCQuestionBlockDetector.detect_lines text = [] →
      UPSCQuestionBlockDetector.detect text = []) ∧
    (UPSCQuestionBlockDetector.detect_lines text ≠ [] →
      (∀ l ∈ UPSCQuestionBlockDetector.detect_lines text,
        UPSCQuestionBlockDetector.is_probable_question_start l = false) →
      UPSCQuestionBlockDetector.detect text =
        [pyStrip (joinSep ['\n'] (UPSCQuestionBlockDetector.detect_lines text))]) := by
  constructor
  · intro hempty
    unfold UPSCQuestionBlockDetector.detect
    rw [hempty]
    rfl
  · intro hne hall
    unfold UPSCQuestionBlockDetector.detect
    rw [detect_loop_all_continuation _ _ _ hall]
    simp [hne]

/-- Witness for claim C6: the empty text yields no block; a two-line
text with no probable question start yields exactly one block holding
both lines. -/
theorem detect_empty_and_no_start_witness :
    UPSCQuestionBlockDetector.detect (("").data) = [] ∧
    UPSCQuestionBlockDetector.detect (("Hello world\nsome more text").data) =
      [pyStrip (joinSep ['\n']
        (UPSCQuestionBlockDetector.detect_lines
          (("Hello world\nsome more text").data)))] :=
  ⟨(detect_empty_and_no_start (("").data)).1 (by decide),
   (detect_empty_and_no_start (("Hello world\nsome more text").data)).2
     (by decide) (by decide)⟩

/-- Claim C10.  Whenever a value starts (after stripping) with a letter
in the a-e/A-E label class, `_clean_option_value` deletes that letter
together with one optional closing delimiter and any following
whitespace — even when the letter opens an ordinary word; a value whose
first character is a letter outside the class is left unchanged.  On
concrete mappings: "Delhi" loses its D, "Both options" loses its B,
"Mumbai" survives. -/
theorem normalize_strips_leading_label_letter :
    (∀ (v : List Char) (c : Char) (rest : List Char),
      pyStrip v = c :: rest → OptionNormalizer.isLabelLetter c = true →
      OptionNormalizer.clean_option_value v = OptionNormalizer.afterLabel rest) ∧
    (∀ (v : List Char) (c : Char) (rest : List Char),
      pyStrip v = c :: rest → c.isAlpha = true →
      OptionNormalizer.isLabelLetter c = false →
      OptionNormalizer.clean_option_value v = pyStrip v) ∧
    OptionNormalizer.normalize [("A", "Delhi")] = [("A", "elhi")] ∧
    OptionNormalizer.normalize [("B", "Both options")] = [("B", "oth options")] ∧
    OptionNormalizer.normalize [("C", "Mumbai")] = [("C", "Mumbai")] := by
  refine ⟨?_, ?_, by decide, by decide, by decide⟩
  · intro v c rest h hl
    have hsp : isPySpace c = false := by
      by_contra hq
      rw [Bool.not_eq_false] at hq
      simp only [isPySpace, Bool.or_eq_true, decide_eq_true_eq] at hq
      casesm* _ ∨ _ <;> (subst_vars; exact absurd hl (by decide))
    have hbr : (decide (c = '(') || decide (c = '[')) = false := by
      by_contra hq
      rw [Bool.not_eq_false] at hq
      simp only [Bool.or_eq_true, decide_eq_true_eq] at hq
      rcases hq with rfl | rfl <;> exact absurd hl (by decide)
    simp [OptionNormalizer.clean_option_value, OptionNormalizer.matchLabelRemainder,
      h, hbr, hsp, hl, List.dropWhile_cons]
  · intro v c rest h halpha hnl
    have hsp : isPySpace c = false := by
      by_contra hq
      rw [Bool.not_eq_false] at hq
      simp only [isPySpace, Bool.or_eq_true, decide_eq_true_eq] at hq
      casesm* _ ∨ _ <;> (subst_vars; exact absurd halpha (by decide))
    have hbr : (decide (c = '(') || decide (c = '[')) = false := by
      by_contra hq
      rw [Bool.not_eq_false] at hq
      simp only [Bool.or_eq_true, decide_eq_true_eq] at hq
      rcases hq with rfl | rfl <;> exact absurd halpha (by decide)
    simp [OptionNormalizer.clean_option_value, OptionNormalizer.matchLabelRemainder,
      h, hbr, hsp, hnl, List.dropWhile_cons]

/-- Witness for claim C10's general parts: "Delhi" starts with the label
letter D and is clipped; "Mumbai" starts with the non-label letter M and
is unchanged. -/
theorem normalize_strips_leading_label_letter_witness :
    OptionNormalizer.clean_option_value (("Delhi").data) =
      OptionNormalizer.afterLabel (("elhi").data) ∧
    OptionNormalizer.clean_option_value (("Mumbai").data) =
      pyStrip (("Mumbai").data) :=
  ⟨normalize_strips_leading_label_letter.1 (("Delhi").data) 'D' (("elhi").data)
     (by decide) (by decide),
   normalize_strips_leading_label_letter.2.1 (("Mumbai").data) 'M' (("umbai").data)
     (by decide) (by decide) (by decide)⟩
